import Mathlib

/-!
Verification of the RAG career-guidance chat service
(backend/src/services/rag_service.py) against its specification.

The Python module is shallowly embedded: the external collaborators
(the HuggingFace embedding model, the Chroma vector store with its
retriever, and the Groq/Google language models) are modelled as oracles
that either return a value or fail with a message (`Except String`),
exactly as a Python call either returns or raises.  Every `try/except`
block of the source becomes a `match` on such an `Except` computation.

Retrieval is a stateful external collaborator: `chat` invokes
`self.retriever.invoke` twice per turn (once at line 239 for the sources,
once inside the chain's `get_context` at line 188 for the prompt
context), so the retrieval oracle takes the per-turn invocation index
(0 = the sources call, 1 = the context call) together with the query
string; a deterministic retriever is one whose answer does not depend on
that index.
-/

/-- One element of the caller-supplied `chat_history` list
(a Python dict).  `role = none` models a dict with no "role" key at all
(so `msg["role"]` raises `KeyError`); `content = none` models a dict with
no "content" key (so `msg.get("content", "")` yields the empty string). -/
structure HistMsg where
  role : Option String
  content : Option String
  deriving DecidableEq

/-- A normalized LangChain history turn: `HumanMessage` or `AIMessage`
(rag_service.py lines 234 and 236). -/
inductive LCMessage where
  | human (content : String)
  | ai (content : String)
  deriving DecidableEq

/-- A retrieved document as the vector store returns it: `page_content`
plus the `title` and `chunk_index` metadata entries, each optional because
the code reads them with `metadata.get(..., default)` (lines 183, 256, 257). -/
structure Doc where
  title : Option String
  chunk_index : Option Int
  page_content : String
  deriving DecidableEq

/-- One entry of the `sources` list built at lines 254-259. -/
structure SourceEntry where
  title : String
  chunk_index : Int
  snippet : String
  deriving DecidableEq

/-- The dict returned by `RAGChatService.chat` (lines 261-265 / 270-274):
`response` and `error` are nullable, `sources` is a list. -/
structure ChatResult where
  response : Option String
  sources : List SourceEntry
  error : Option String
  deriving DecidableEq

/-- The input dict assembled by the chain at lines 191-197 and handed to
`prompt | llm | StrOutputParser`: the formatted retrieval context, the
question, the language code and the normalized history. -/
structure PromptInput where
  context : String
  question : String
  language : String
  chat_history : List LCMessage
  deriving DecidableEq

/-- What Python renders for `str(KeyError("role"))`: the error message
surfaced when a history element has no "role" key (line 233). -/
def keyErrorRole : String := "'role'"

/-- The loop body at lines 227-236 for a single history element:
read `content` with default "" (line 228), then look up `msg["role"]`
(raising `KeyError` when the key is missing), mapping "user" to a
`HumanMessage`, "assistant" to an `AIMessage`, and skipping any other
role value. -/
def convertMsg (msg : HistMsg) : Except String (Option LCMessage) :=
  match msg.role with
  | none => Except.error keyErrorRole
  | some r =>
    if r = "user" then Except.ok (some (LCMessage.human (msg.content.getD "")))
    else if r = "assistant" then Except.ok (some (LCMessage.ai (msg.content.getD "")))
    else Except.ok none

/-- Python `chat_history[-10:]` (line 227): the last 10 elements. -/
def lastTen (l : List HistMsg) : List HistMsg := l.drop (l.length - 10)

/-- The whole history-conversion loop over an (already windowed) list:
processes elements front to back, stopping at the first element whose
"role" key is missing, and collecting the recognized turns in order. -/
def convertList : List HistMsg → Except String (List LCMessage)
  | [] => Except.ok []
  | m :: ms =>
    match convertMsg m with
    | Except.error e => Except.error e
    | Except.ok turn =>
      match convertList ms with
      | Except.error e => Except.error e
      | Except.ok rest =>
        Except.ok (match turn with | some t => t :: rest | none => rest)

/-- Lines 226-236 of `RAGChatService.chat`: window the caller-supplied
history to the last 10 elements, then normalize each one. -/
def convertHistory (hist : List HistMsg) : Except String (List LCMessage) :=
  convertList (lastTen hist)

/-- `format_docs` (lines 177-184): a fixed marker for an empty retrieval,
otherwise each document rendered as a numbered, titled block (numbering
from 1, title defaulted to "Unknown"), joined by a visible separator. -/
def format_docs (docs : List Doc) : String :=
  match docs with
  | [] => "No relevant information found."
  | _ =>
    String.intercalate "\n\n---\n\n"
      (docs.enum.map (fun p =>
        "[Source " ++ toString (p.1 + 1) ++ ": " ++ p.2.title.getD "Unknown"
          ++ "]\n" ++ p.2.page_content))

/-- One entry of the sources list (lines 255-259): title defaulted to
"Unknown", chunk_index defaulted to 0, snippet = first 250 characters of
the chunk text. -/
def mkSource (d : Doc) : SourceEntry :=
  { title := d.title.getD "Unknown",
    chunk_index := d.chunk_index.getD 0,
    snippet := d.page_content.take 250 }

/-- An initialized service instance: the retrieval oracle (taking the
per-turn invocation index and the query) and the generation oracle (the
composite `prompt | llm | StrOutputParser` tail of the chain, consuming
the assembled `PromptInput`). -/
structure RAGService where
  retrieve : Nat → String → Except String (List Doc)
  llm : PromptInput → Except String String

/-- `get_context` (lines 186-189): the chain's own retrieval call
(per-turn invocation index 1) followed by `format_docs`. -/
def get_context (svc : RAGService) (question : String) : Except String String :=
  match svc.retrieve 1 question with
  | Except.error e => Except.error e
  | Except.ok docs => Except.ok (format_docs docs)

/-- `self.chain.invoke` (lines 191-201 applied at 242-246): assemble the
input dict, with `context` computed by `get_context`, and hand it to the
generation collaborator. -/
def chain_invoke (svc : RAGService) (question : String)
    (lc_history : List LCMessage) (language : String) : Except String String :=
  match get_context svc question with
  | Except.error e => Except.error e
  | Except.ok ctx =>
    svc.llm { context := ctx, question := question, language := language,
              chat_history := lc_history }

/-- The body of `RAGChatService.chat`'s `try` block (lines 219-265):
normalize the history, retrieve documents for the sources (invocation
index 0, line 239), run the chain (which retrieves again for the context),
then build the result with the top 4 sources. -/
def chatGo (svc : RAGService) (message : String) (chat_history : List HistMsg)
    (language : String) : Except String ChatResult :=
  match convertHistory chat_history with
  | Except.error e => Except.error e
  | Except.ok lc_history =>
    match svc.retrieve 0 message with
    | Except.error e => Except.error e
    | Except.ok docs =>
      match chain_invoke svc message lc_history language with
      | Except.error e => Except.error e
      | Except.ok response =>
        Except.ok { response := some response,
                    sources := (docs.take 4).map mkSource,
                    error := none }

/-- `RAGChatService.chat` (lines 205-274): the `try/except` wrapper.  Any
exception raised in the body is caught and converted to a null response
with empty sources and the exception's message in `error` (lines 267-274);
no exception propagates. -/
def chat (svc : RAGService) (message : String) (chat_history : List HistMsg)
    (language : String) : ChatResult :=
  match chatGo svc message chat_history language with
  | Except.ok r => r
  | Except.error e => { response := none, sources := [], error := some e }

/-- The fixed generation-instruction table of
`generate_initial_greeting` (lines 289-296), as the lookup
`lang_instructions.get(language, "Generate in English")` at line 298:
a supported code selects its instruction string, anything else falls
back to the English instruction. -/
def lang_instruction (language : String) : String :=
  if language = "en" then "Generate in English"
  else if language = "hi" then "Generate in Hindi (हिंदी में जवाब दें)"
  else if language = "te" then "Generate in Telugu (తెలుగులో సమాధానం ఇవ్వండి)"
  else if language = "ta" then "Generate in Tamil (தமிழில் பதிலளிக்கவும்)"
  else if language = "mr" then "Generate in Marathi (मराठीत उत्तर द्या)"
  else if language = "bn" then "Generate in Bengali (বাংলায় উত্তর দিন)"
  else "Generate in English"

/-- The synthesized greeting prompt (the f-string at lines 300-311),
embedding the selected language instruction and the assessment summary. -/
def greeting_prompt (assessment_summary : String) (language : String) : String :=
  "Based on this student's assessment results, generate a warm, encouraging greeting that:\n1. Welcomes them to the career guidance chat\n2. Briefly acknowledges their assessment results\n3. Invites them to ask questions about their career recommendations\n4. Is age-appropriate for students aged 13-15\n\n"
    ++ lang_instruction language
    ++ "\n\nAssessment Summary:\n" ++ assessment_summary
    ++ "\n\nKeep the greeting concise (2-3 sentences) and friendly."

/-- The fixed fallback greeting of the `except` branch at line 320. -/
def fallback_greeting : String :=
  "Hello! I'm your career guidance assistant. I'm here to help you explore your career options based on your assessment results. What would you like to know?"

/-- The body of `generate_initial_greeting`'s `try` block (lines
287-314): build the greeting prompt and route it through `chat` with an
empty history.  `chat` itself never raises (it catches every exception
internally), so this body always succeeds. -/
def greetingGo (svc : RAGService) (assessment_summary : String)
    (language : String) : Except String ChatResult :=
  Except.ok (chat svc (greeting_prompt assessment_summary language) [] language)

/-- `RAGChatService.generate_initial_greeting` (lines 276-323): the
`try/except` wrapper whose handler (lines 316-323) would substitute the
fixed fallback greeting while reporting the error. -/
def generate_initial_greeting (svc : RAGService) (assessment_summary : String)
    (language : String) : ChatResult :=
  match greetingGo svc assessment_summary language with
  | Except.ok r => r
  | Except.error e =>
    { response := some fallback_greeting, sources := [], error := some e }

/-- The vector store handle produced by `_init_vectordb`: all the service
keeps of it is the retriever (per-turn invocation index and query to
documents). -/
structure VectorStore where
  retrieve : Nat → String → Except String (List Doc)

/-- The external side of `RAGChatService.__init__`: loading the
embedding model and building or loading the Chroma store from
`careers_json_path` / `chroma_persist_dir` (lines 65-70, file I/O and
network, so fallible), and the two provider constructors `ChatGroq` and
`ChatGoogleGenerativeAI` (lines 134-147, here as the chain tail each
would give). -/
structure InitEnv where
  init_vectordb : Option String → Option String → Except String VectorStore
  mk_groq : Except String (PromptInput → Except String String)
  mk_google : Except String (PromptInput → Except String String)

/-- `_init_llm` (lines 130-149): provider "groq" and "google" select
their collaborator; any other provider string raises
`ValueError(f"Unknown provider: ...")`. -/
def init_llm (env : InitEnv) (provider : String) :
    Except String (PromptInput → Except String String) :=
  if provider = "groq" then env.mk_groq
  else if provider = "google" then env.mk_google
  else Except.error ("Unknown provider: " ++ provider)

/-- `RAGChatService.__init__` (lines 47-79): embeddings and vector store
first (lines 65-70), then the provider-selected LLM (line 73); the
retriever and chain wiring is pure.  Any failure raises out of the
constructor. -/
def mkRAGService (env : InitEnv) (careers_json : Option String)
    (chroma_dir : Option String) (provider : String) : Except String RAGService :=
  match env.init_vectordb careers_json chroma_dir with
  | Except.error e => Except.error e
  | Except.ok vdb =>
    match init_llm env provider with
    | Except.error e => Except.error e
    | Except.ok llmFun => Except.ok { retrieve := vdb.retrieve, llm := llmFun }

/-- One parsed command line of the dispatch protocol (lines 349-398).
`init` carries `careers_json_path`, `chroma_persist_dir` (absent keys as
`none`) and the provider (defaulted to "google" at line 353); `other`
carries the unrecognized command value (`none` models an absent or null
"command" key, which Python renders as "None"). -/
inductive Command where
  | init (careers_json : Option String) (chroma_dir : Option String) (provider : String)
  | chatCmd (message : String) (chat_history : List HistMsg) (language : String)
  | greetingCmd (assessment_summary : String) (language : String)
  | other (name : Option String)
  deriving DecidableEq

/-- One response line written by the dispatch loop. -/
structure Response where
  status : String
  message : Option String
  data : Option ChatResult
  deriving DecidableEq

/-- The message of the exception raised at lines 370-371 and 384-385 when
`chat` or `greeting` arrives while `rag_service` is still `None`. -/
def notInitMsg : String := "Service not initialized. Call 'initialize' first."

/-- The error response shape written by the handler at lines 400-404 and
by the unknown-command branch at lines 395-398. -/
def errorResp (msg : String) : Response :=
  { status := "error", message := some msg, data := none }

/-- The body of the per-line `try` block of `main` (lines 345-398), on a
parsed command: `Except.error` is a raised exception the handler at lines
400-404 will turn into an error response.  The first component of the
result is the new `rag_service` binding (the assignment at line 356
happens only when the constructor returns). -/
def dispatchGo (env : InitEnv) (st : Option RAGService) (cmd : Command) :
    Except String (Option RAGService × Response) :=
  match cmd with
  | Command.init cj cd provider =>
    match mkRAGService env cj cd provider with
    | Except.error e => Except.error e
    | Except.ok svc =>
      Except.ok (some svc,
        { status := "success", message := some "RAG service initialized", data := none })
  | Command.chatCmd message hist language =>
    match st with
    | none => Except.error notInitMsg
    | some svc =>
      Except.ok (st, { status := "success", message := none,
                       data := some (chat svc message hist language) })
  | Command.greetingCmd summary language =>
    match st with
    | none => Except.error notInitMsg
    | some svc =>
      Except.ok (st, { status := "success", message := none,
                       data := some (generate_initial_greeting svc summary language) })
  | Command.other nm =>
    Except.ok (st, errorResp ("Unknown command: " ++ nm.getD "None"))

/-- One iteration of the dispatch loop including the `except` handler
(lines 400-404): a raised exception becomes an error response and leaves
`rag_service` exactly as it was. -/
def dispatch (env : InitEnv) (st : Option RAGService) (cmd : Command) :
    Option RAGService × Response :=
  match dispatchGo env st cmd with
  | Except.ok r => r
  | Except.error e => (st, errorResp e)

/-- The dispatch loop of `main` (lines 331-404) over a list of parsed
command lines, threading the `rag_service` binding and emitting one
response per command. -/
def runLoop (env : InitEnv) : Option RAGService → List Command → List Response
  | _, [] => []
  | st, c :: cs => (dispatch env st c).2 :: runLoop env (dispatch env st c).1 cs

/-- The `rag_service` binding after the loop has processed a list of
commands. -/
def stateAfter (env : InitEnv) : Option RAGService → List Command → Option RAGService
  | st, [] => st
  | st, c :: cs => stateAfter env (dispatch env st c).1 cs

/-- Whether a command is an `initialize` whose constructor succeeds (the
only way the loop ever moves `rag_service` away from `None`). -/
def initSucceeds (env : InitEnv) : Command → Bool
  | Command.init cj cd p =>
    match mkRAGService env cj cd p with
    | Except.ok _ => true
    | Except.error _ => false
  | _ => false

/-- Spec-side characterization (section 4.3 of the spec) of what becomes
of one windowed history element: "user" keeps a user turn, "assistant"
keeps an assistant turn, anything else is dropped; compared against the
source-derived `convertMsg` / `convertList`. -/
def keptTurn (m : HistMsg) : Option LCMessage :=
  match m.role with
  | none => none
  | some r =>
    if r = "user" then some (LCMessage.human (m.content.getD ""))
    else if r = "assistant" then some (LCMessage.ai (m.content.getD ""))
    else none

theorem lastTen_length (l : List HistMsg) : (lastTen l).length ≤ 10 := by
  simp only [lastTen, List.length_drop]
  omega

theorem convertMsg_eq_of_role (m : HistMsg) (hr : m.role ≠ none) :
    convertMsg m = Except.ok (keptTurn m) := by
  cases hm : m.role with
  | none => exact absurd hm hr
  | some r =>
    unfold convertMsg keptTurn
    rw [hm]
    by_cases h1 : r = "user"
    · simp [h1]
    · by_cases h2 : r = "assistant" <;> simp [h1, h2]

theorem convertList_ok_of_roles (l : List HistMsg)
    (hr : ∀ m ∈ l, m.role ≠ none) :
    convertList l = Except.ok (l.filterMap keptTurn) := by
  induction l with
  | nil => rfl
  | cons m ms ih =>
    have h1 := convertMsg_eq_of_role m (hr m (List.mem_cons_self m ms))
    have h2 := ih (fun x hx => hr x (List.mem_cons_of_mem m hx))
    rw [convertList, h1, h2, List.filterMap_cons]
    cases keptTurn m <;> simp

theorem convertList_error_of_missing_role (l : List HistMsg)
    (h : ∃ m ∈ l, m.role = none) : convertList l = Except.error keyErrorRole := by
  induction l with
  | nil => simp at h
  | cons m ms ih =>
    by_cases hm : m.role = none
    · rw [convertList, convertMsg, hm]
    · have hrest : ∃ x ∈ ms, x.role = none := by
        rcases h with ⟨x, hx, hxr⟩
        rcases List.mem_cons.mp hx with rfl | hx2
        · exact absurd hxr hm
        · exact ⟨x, hx2, hxr⟩
      rw [convertList, convertMsg_eq_of_role m hm, ih hrest]

theorem stateAfter_none (env : InitEnv) (cmds : List Command)
    (hno : ∀ c ∈ cmds, initSucceeds env c = false) :
    stateAfter env none cmds = none := by
  induction cmds with
  | nil => rfl
  | cons c cs ih =>
    have h1 : (dispatch env none c).1 = none := by
      cases c with
      | init cj cd p =>
        have hc := hno _ (List.mem_cons_self (Command.init cj cd p) cs)
        rw [initSucceeds] at hc
        cases hmk : mkRAGService env cj cd p with
        | ok svc => rw [hmk] at hc; simp at hc
        | error e => simp [dispatch, dispatchGo, hmk]
      | chatCmd m h l => rfl
      | greetingCmd s l => rfl
      | other n => rfl
    rw [stateAfter, h1]
    exact ih (fun c hc => hno c (List.mem_cons_of_mem _ hc))

/-- A concrete retrieved document used by witnesses (the spec's own
end-to-end corpus example). -/
def docA : Doc :=
  { title := some "Doctor", chunk_index := some 0,
    page_content := "Doctors diagnose and treat illness." }

/-- A second concrete retrieved document, distinct from `docA`. -/
def docB : Doc :=
  { title := some "Engineer", chunk_index := some 1,
    page_content := "Engineers design and build systems." }

/-- A deterministic, always-succeeding service: both retrieval calls of a
turn return `[docA]`, the generation collaborator answers "answer". -/
def svcDet : RAGService :=
  { retrieve := fun _ _ => Except.ok [docA],
    llm := fun _ => Except.ok "answer" }

/-- A service whose retrieval collaborator always raises "boom". -/
def svcRetrErr : RAGService :=
  { retrieve := fun _ _ => Except.error "boom",
    llm := fun _ => Except.ok "answer" }

/-- A service whose retrieval succeeds but whose generation collaborator
raises "llm down". -/
def svcLLMErr : RAGService :=
  { retrieve := fun _ _ => Except.ok [docA],
    llm := fun _ => Except.error "llm down" }

/-- A stateful retriever: the sources call (index 0) of a turn returns
`[docA]`, the chain's context call (index 1) returns `[docB]`; the
generation collaborator echoes the context it was given. -/
def svcTwoCalls : RAGService :=
  { retrieve := fun i _ => Except.ok (if i = 0 then [docA] else [docB]),
    llm := fun p => Except.ok p.context }

/-- An environment whose corpus/vector-store step fails (an unreadable
corpus file) and whose provider constructors succeed. -/
def envBad : InitEnv :=
  { init_vectordb := fun _ _ => Except.error "corpus unreadable",
    mk_groq := Except.ok (fun _ => Except.ok "g"),
    mk_google := Except.ok (fun _ => Except.ok "G") }

/-- An environment where every external initialization step succeeds,
yielding `svcDet`'s collaborators. -/
def envGood : InitEnv :=
  { init_vectordb := fun _ _ => Except.ok { retrieve := fun _ _ => Except.ok [docA] },
    mk_groq := Except.ok (fun _ => Except.ok "answer"),
    mk_google := Except.ok (fun _ => Except.ok "answer") }

/-- C1: while no `initialize` command has succeeded in the session, the
service state is still `None`, and a dispatched `chat` or `greeting`
command yields exactly the `status: error` response whose message says
the service is not initialized, leaving the state `None`.  The response
is a fixed constant, independent of the environment and of the command's
arguments: no retrieval or generation logic can contribute to it. -/
theorem c1_uninitialized_chat_greeting_error (env : InitEnv) (cmds : List Command)
    (m : String) (h : List HistMsg) (lang : String) (s : String)
    (hno : ∀ c ∈ cmds, initSucceeds env c = false) :
    stateAfter env none cmds = none ∧
    dispatch env (stateAfter env none cmds) (Command.chatCmd m h lang)
      = (none, errorResp notInitMsg) ∧
    dispatch env (stateAfter env none cmds) (Command.greetingCmd s lang)
      = (none, errorResp notInitMsg) ∧
    (errorResp notInitMsg).status = "error" := by
  have hs : stateAfter env none cmds = none := stateAfter_none env cmds hno
  rw [hs]
  exact ⟨rfl, rfl, rfl, rfl⟩

/-- C1 witness: a session whose only prior command is a failing
`initialize` (unreadable corpus), followed by a `chat` and a `greeting`. -/
theorem c1_witness :
    dispatch envBad (stateAfter envBad none [Command.init none none "google"])
      (Command.chatCmd "hello" [] "en") = (none, errorResp notInitMsg) ∧
    dispatch envBad (stateAfter envBad none [Command.init none none "google"])
      (Command.greetingCmd "summary" "hi") = (none, errorResp notInitMsg) := by
  have h := c1_uninitialized_chat_greeting_error envBad
    [Command.init none none "google"] "hello" [] "en" "summary" (by decide)
  exact ⟨h.2.1, (c1_uninitialized_chat_greeting_error envBad
    [Command.init none none "google"] "hello" [] "en" "summary" (by decide)).2.2.1⟩

/-- C2: on an initialized service, a failure raised by any collaborator
during the turn — the retrieval call for the sources (embedding/index),
the chain's retrieval call for the context, or the language-model call —
is caught inside `chat`, which returns a structured result with a null
response and the failure message in `error`.  `chat` is a total function
into `ChatResult`, so no exception propagates out of it. -/
theorem c2_collaborator_failure_structured (svc : RAGService) (m : String)
    (hist : List HistMsg) (lang : String) (lc : List LCMessage) (e : String) :
    (convertHistory hist = Except.ok lc → svc.retrieve 0 m = Except.error e →
      chat svc m hist lang = { response := none, sources := [], error := some e }) ∧
    (∀ docs, convertHistory hist = Except.ok lc → svc.retrieve 0 m = Except.ok docs →
      svc.retrieve 1 m = Except.error e →
      chat svc m hist lang = { response := none, sources := [], error := some e }) ∧
    (∀ docs cdocs, convertHistory hist = Except.ok lc →
      svc.retrieve 0 m = Except.ok docs → svc.retrieve 1 m = Except.ok cdocs →
      svc.llm { context := format_docs cdocs, question := m, language := lang,
                chat_history := lc } = Except.error e →
      chat svc m hist lang = { response := none, sources := [], error := some e }) := by
  refine ⟨?_, ?_, ?_⟩ <;> intros <;>
    simp [chat, chatGo, chain_invoke, get_context, *]

/-- C2 witness: the retrieval collaborator raises "boom" on a concrete
turn; `chat` returns the structured failure result. -/
theorem c2_witness :
    chat svcRetrErr "q" [] "en"
      = { response := none, sources := [], error := some "boom" } :=
  (c2_collaborator_failure_structured svcRetrErr "q" [] "en" [] "boom").1 rfl rfl

/-- C3: a `chat` command dispatched on an initialized service wraps the
`chat` result as the `data` object of a success envelope, and that object
satisfies exactly one of: non-null response with null error, or null
response with non-null error (the two disjuncts exclude each other since
one says `response ≠ none` and the other `response = none`). -/
theorem c3_chat_data_response_xor_error (env : InitEnv) (svc : RAGService)
    (m : String) (hist : List HistMsg) (lang : String) :
    (dispatch env (some svc) (Command.chatCmd m hist lang)).2
      = { status := "success", message := none, data := some (chat svc m hist lang) } ∧
    (((chat svc m hist lang).response ≠ none ∧ (chat svc m hist lang).error = none) ∨
     ((chat svc m hist lang).response = none ∧ (chat svc m hist lang).error ≠ none)) := by
  refine ⟨rfl, ?_⟩
  cases hc : convertHistory hist with
  | error e => simp [chat, chatGo, hc]
  | ok lc =>
    cases hr : svc.retrieve 0 m with
    | error e => simp [chat, chatGo, hc, hr]
    | ok docs =>
      cases hg : chain_invoke svc m lc lang with
      | error e => simp [chat, chatGo, hc, hr, hg]
      | ok resp => simp [chat, chatGo, hc, hr, hg]

/-- C4: when every element of the 10-element recency window has a "role"
key, the normalization succeeds and returns exactly the in-order
`filterMap` of `keptTurn` over the window — so the output length is at
most 10, retained turns keep their relative chronological order, "user"
maps to a user turn, "assistant" to an assistant turn, and any element
with another role value is silently dropped rather than erroring. -/
theorem c4_history_window (hist : List HistMsg)
    (hr : ∀ m ∈ lastTen hist, m.role ≠ none) :
    convertHistory hist = Except.ok ((lastTen hist).filterMap keptTurn) ∧
    ((lastTen hist).filterMap keptTurn).length ≤ 10 ∧
    (∀ m : HistMsg, m.role = some "user" →
      keptTurn m = some (LCMessage.human (m.content.getD ""))) ∧
    (∀ m : HistMsg, m.role = some "assistant" →
      keptTurn m = some (LCMessage.ai (m.content.getD ""))) ∧
    (∀ m : HistMsg, ∀ r, m.role = some r → r ≠ "user" → r ≠ "assistant" →
      keptTurn m = none) := by
  refine ⟨convertList_ok_of_roles _ hr, ?_, ?_, ?_, ?_⟩
  · exact le_trans (List.length_filterMap_le _ _) (lastTen_length hist)
  · intro m hm; simp [keptTurn, hm]
  · intro m hm; simp [keptTurn, hm]
  · intro m r hm h1 h2; simp [keptTurn, hm, h1, h2]

/-- C4 witness: a 12-element history containing "user", "assistant", a
"system" element (dropped) and an element without "content" (kept with
empty content); the first two elements fall outside the window. -/
theorem c4_witness :
    convertHistory
      ([{ role := some "user", content := some "m1" },
        { role := some "user", content := some "m2" },
        { role := some "user", content := some "u3" },
        { role := some "assistant", content := some "a4" },
        { role := some "system", content := some "s5" },
        { role := some "user", content := none },
        { role := some "assistant", content := some "a7" },
        { role := some "user", content := some "u8" },
        { role := some "assistant", content := some "a9" },
        { role := some "tool", content := some "t10" },
        { role := some "user", content := some "u11" },
        { role := some "assistant", content := some "a12" }] : List HistMsg)
      = Except.ok
        [LCMessage.human "u3", LCMessage.ai "a4", LCMessage.human "",
         LCMessage.ai "a7", LCMessage.human "u8", LCMessage.ai "a9",
         LCMessage.human "u11", LCMessage.ai "a12"] := by
  have h := (c4_history_window
    [{ role := some "user", content := some "m1" },
     { role := some "user", content := some "m2" },
     { role := some "user", content := some "u3" },
     { role := some "assistant", content := some "a4" },
     { role := some "system", content := some "s5" },
     { role := some "user", content := none },
     { role := some "assistant", content := some "a7" },
     { role := some "user", content := some "u8" },
     { role := some "assistant", content := some "a9" },
     { role := some "tool", content := some "t10" },
     { role := some "user", content := some "u11" },
     { role := some "assistant", content := some "a12" }] (by decide)).1
  rw [h]
  rfl

/-- C5 counterexample: `chat` performs two retrieval calls per turn (line
239 for the sources and, inside the chain, line 188 for the context),
not one.  With a retriever whose sources call returns `[docA]` and whose
context call returns `[docB]`, and a generation collaborator that echoes
the context it received, the prompt context is formatted from `[docB]`
while the sources list is built from `[docA]` — the two lists do not come
from one shared retrieval result, refuting the claim at this input. -/
theorem c5_counterexample :
    (chat svcTwoCalls "q" [] "en").sources = [mkSource docA] ∧
    (chat svcTwoCalls "q" [] "en").response = some (format_docs [docB]) ∧
    format_docs [docB] ≠ format_docs [docA] := by
  refine ⟨rfl, rfl, ?_⟩
  decide

/-- C5 amended: each turn issues two retrieval calls with the same
message as query; when the retriever is deterministic (its answer does
not depend on the per-turn invocation index), both calls return the same
documents, and then the generation context is formatted from exactly the
document list whose top 4 also form the sources — one result reused for
both purposes, capped independently at display time. -/
theorem c5_two_calls_deterministic_share_docs (svc : RAGService) (m : String)
    (hist : List HistMsg) (lang : String) (lc : List LCMessage)
    (docs : List Doc) (r : String)
    (hdet : ∀ i q, svc.retrieve i q = svc.retrieve 0 q)
    (hconv : convertHistory hist = Except.ok lc)
    (hret : svc.retrieve 0 m = Except.ok docs)
    (hllm : svc.llm { context := format_docs docs, question := m,
                      language := lang, chat_history := lc } = Except.ok r) :
    chat svc m hist lang
      = { response := some r, sources := (docs.take 4).map mkSource,
          error := none } := by
  have h1 : svc.retrieve 1 m = Except.ok docs := by rw [hdet 1 m, hret]
  simp [chat, chatGo, chain_invoke, get_context, hconv, hret, h1, hllm]

/-- C5 witness: a deterministic retriever on a concrete turn. -/
theorem c5_witness :
    chat svcDet "q" [] "en"
      = { response := some "answer",
          sources := ([docA].take 4).map mkSource, error := none } :=
  c5_two_calls_deterministic_share_docs svcDet "q" [] "en" [] [docA] "answer"
    (fun _ _ => rfl) rfl rfl rfl

/-- C6 counterexample: an internal failure during greeting production (the
language-model collaborator raises "llm down") is absorbed by `chat`, so
`generate_initial_greeting` returns a null response with the error
reported — not the fixed fallback greeting the claim requires as the
response. -/
theorem c6_counterexample :
    (generate_initial_greeting svcLLMErr "summary" "en").error = some "llm down" ∧
    (generate_initial_greeting svcLLMErr "summary" "en").response = none ∧
    (none : Option String) ≠ some fallback_greeting := by
  exact ⟨rfl, rfl, by simp⟩

/-- C6 amended: `generate_initial_greeting` always returns exactly what
`chat` returns on the synthesized prompt with empty history — its own
`try` body cannot raise, because `chat` catches every exception — so an
internal failure surfaces as a null response with the error message in
the `error` field and never propagates; the fixed fallback-greeting
branch is unreachable. -/
theorem c6_greeting_error_passthrough (svc : RAGService) (s lang : String) :
    generate_initial_greeting svc s lang
      = chat svc (greeting_prompt s lang) [] lang ∧
    (∀ e, chatGo svc (greeting_prompt s lang) [] lang = Except.error e →
      generate_initial_greeting svc s lang
        = { response := none, sources := [], error := some e }) := by
  refine ⟨rfl, ?_⟩
  intro e he
  simp [generate_initial_greeting, greetingGo, chat, he]

/-- C6 witness: at the concrete failing collaborator, the greeting result
is the structured failure, not the fallback greeting. -/
theorem c6_witness :
    generate_initial_greeting svcLLMErr "s" "en"
      = { response := none, sources := [], error := some "llm down" } :=
  (c6_greeting_error_passthrough svcLLMErr "s" "en").2 "llm down" rfl

/-- C7: the greeting language table maps each of the six supported codes
to its fixed instruction string naming the language, any other code
falls back to the English instruction, and the synthesized greeting
prompt is routed through the ordinary `chat` operation with an empty
history sequence. -/
theorem c7_language_table (svc : RAGService) (s lang : String)
    (hunk : lang ∉ ["en", "hi", "te", "ta", "mr", "bn"]) :
    lang_instruction "en" = "Generate in English" ∧
    lang_instruction "hi" = "Generate in Hindi (हिंदी में जवाब दें)" ∧
    lang_instruction "te" = "Generate in Telugu (తెలుగులో సమాధానం ఇవ్వండి)" ∧
    lang_instruction "ta" = "Generate in Tamil (தமிழில் பதிலளிக்கவும்)" ∧
    lang_instruction "mr" = "Generate in Marathi (मराठीत उत्तर द्या)" ∧
    lang_instruction "bn" = "Generate in Bengali (বাংলায় উত্তর দিন)" ∧
    lang_instruction lang = "Generate in English" ∧
    (∀ l, generate_initial_greeting svc s l = chat svc (greeting_prompt s l) [] l) := by
  simp only [List.mem_cons, List.not_mem_nil, or_false, not_or] at hunk
  obtain ⟨h1, h2, h3, h4, h5, h6⟩ := hunk
  refine ⟨rfl, rfl, rfl, rfl, rfl, rfl, ?_, fun l => rfl⟩
  simp [lang_instruction, h1, h2, h3, h4, h5, h6]

/-- C7 witness: the unsupported code "fr" selects the English
instruction, and the Hindi code selects the Hindi instruction. -/
theorem c7_witness :
    lang_instruction "fr" = "Generate in English" ∧
    lang_instruction "hi" = "Generate in Hindi (हिंदी में जवाब दें)" := by
  have h := c7_language_table svcDet "s" "fr" (by decide)
  exact ⟨h.2.2.2.2.2.2.1, h.2.1⟩

/-- C8: on a successful chat turn (null `error`), the sources list is
exactly the first 4 retrieved documents, in retrieval rank order, mapped
through `mkSource` (title defaulted to "Unknown", the integer chunk_index
defaulted to 0, snippet = the chunk text truncated to 250 characters);
hence its length is at most 4 and at most the number of chunks the
sources retrieval call returned. -/
theorem c8_sources_shape (svc : RAGService) (m : String) (hist : List HistMsg)
    (lang : String) (docs : List Doc)
    (hret : svc.retrieve 0 m = Except.ok docs)
    (hok : (chat svc m hist lang).error = none) :
    (chat svc m hist lang).sources = (docs.take 4).map mkSource ∧
    (chat svc m hist lang).sources.length ≤ 4 ∧
    (chat svc m hist lang).sources.length ≤ docs.length := by
  have hs : (chat svc m hist lang).sources = (docs.take 4).map mkSource := by
    cases hc : convertHistory hist with
    | error e => simp [chat, chatGo, hc] at hok
    | ok lc =>
      cases hg : chain_invoke svc m lc lang with
      | error e => simp [chat, chatGo, hc, hret, hg] at hok
      | ok resp => simp [chat, chatGo, hc, hret, hg]
  refine ⟨hs, ?_, ?_⟩ <;> rw [hs, List.length_map, List.length_take]
  · exact min_le_left 4 docs.length
  · exact min_le_right 4 docs.length

/-- C8 witness: a concrete successful turn retrieving one chunk. -/
theorem c8_witness :
    (chat svcDet "q" [] "en").sources = ([docA].take 4).map mkSource ∧
    (chat svcDet "q" [] "en").sources.length ≤ 4 ∧
    (chat svcDet "q" [] "en").sources.length ≤ [docA].length :=
  c8_sources_shape svcDet "q" [] "en" [docA] rfl rfl

/-- C9: a failing `initialize` command (the constructor raises) produces
exactly the `status: error` response carrying the exception's message,
and the service binding is exactly what it was before the attempt —
`None` stays `None` and a previously constructed instance stays bound.
Moreover an unreadable corpus fails the constructor with that error, and
with the external steps succeeding, an unsupported provider identifier
fails it with the "Unknown provider" message. -/
theorem c9_init_failure_preserves_state (env : InitEnv) (st : Option RAGService)
    (cj cd : Option String) (p : String) (e : String) (vdb : VectorStore) :
    (mkRAGService env cj cd p = Except.error e →
      dispatch env st (Command.init cj cd p) = (st, errorResp e)) ∧
    (env.init_vectordb cj cd = Except.error e →
      mkRAGService env cj cd p = Except.error e) ∧
    (env.init_vectordb cj cd = Except.ok vdb → p ≠ "groq" → p ≠ "google" →
      mkRAGService env cj cd p
        = Except.error ("Unknown provider: " ++ p)) := by
  refine ⟨?_, ?_, ?_⟩
  · intro h; simp [dispatch, dispatchGo, h]
  · intro h; simp [mkRAGService, h]
  · intro h h1 h2; simp [mkRAGService, h, init_llm, h1, h2]

/-- C9 witness: an unreadable corpus on a never-initialized service (the
state stays `None`), and the unsupported provider "openai" on an
otherwise healthy environment. -/
theorem c9_witness :
    dispatch envBad none (Command.init none none "google")
      = (none, errorResp "corpus unreadable") ∧
    mkRAGService envGood none none "openai"
      = Except.error ("Unknown provider: " ++ "openai") := by
  constructor
  · exact (c9_init_failure_preserves_state envBad none none none "google"
      "corpus unreadable" { retrieve := fun _ _ => Except.ok [] }).1 rfl
  · exact (c9_init_failure_preserves_state envGood none none none "openai" "e"
      { retrieve := fun _ _ => Except.ok [docA] }).2.2 rfl
      (by decide) (by decide)

/-- C10: a history element inside the 10-element window that lacks the
"role" key entirely makes the whole turn fail — `chat` returns a null
response, empty sources and the `KeyError` message — whereas an element
whose role is present but unrecognized is silently dropped
(`convertMsg` returns `ok none`), and an element lacking the "content"
key is kept with empty-string content. -/
theorem c10_missing_role_faults_turn (svc : RAGService) (m : String)
    (hist : List HistMsg) (lang : String)
    (hmiss : ∃ x ∈ lastTen hist, x.role = none) :
    chat svc m hist lang
      = { response := none, sources := [], error := some keyErrorRole } ∧
    (∀ r c, r ≠ "user" → r ≠ "assistant" →
      convertMsg { role := some r, content := c } = Except.ok none) ∧
    convertMsg { role := some "user", content := none }
      = Except.ok (some (LCMessage.human "")) ∧
    convertMsg { role := some "assistant", content := none }
      = Except.ok (some (LCMessage.ai "")) := by
  refine ⟨?_, ?_, rfl, rfl⟩
  · have h := convertList_error_of_missing_role _ hmiss
    simp [chat, chatGo, convertHistory, h]
  · intro r c h1 h2
    simp [convertMsg, h1, h2]

/-- C10 witness: a two-element history whose second element has no
"role" key; the turn fails with the `KeyError` message even though the
first element is well-formed. -/
theorem c10_witness :
    chat svcDet "q"
      [{ role := some "user", content := some "hi" },
       { role := none, content := some "orphan" }] "en"
      = { response := none, sources := [], error := some keyErrorRole } :=
  (c10_missing_role_faults_turn svcDet "q"
    [{ role := some "user", content := some "hi" },
     { role := none, content := some "orphan" }] "en" (by decide)).1
